import Mathlib

/-!
# Verification of the `class-surveyer` request handlers

Shallow embedding of `src/surveyor/views.py` (a Flask feedback portal):
the four entity kinds, the storage state, and the request handlers the
claims are about.  Handlers are pure functions from a store, the
authenticated principal and the request data to a response together with
the updated store.
-/

/-- Modelled from the spec: a `User` row. `teacher_id` is the optional
reference to a Teacher record; the code stores form strings there, so it
is `Option String` (`none` models SQL NULL / Python `None`). -/
structure SurvUser where
  id : Nat
  school_id : String
  name : String
  password : String
  is_teacher : Bool
  teacher_id : Option String
  deriving DecidableEq, Repr

/-- Modelled from the spec: a `Teacher` roster row. -/
structure Teacher where
  id : String
  name : String
  deriving DecidableEq, Repr

/-- Modelled from the spec: a `Class` row with its owning teacher. -/
structure SchoolClass where
  id : Nat
  name : String
  teacher_id : String
  deriving DecidableEq, Repr

/-- Modelled from the spec: a `Feedback` row. -/
structure Feedback where
  id : Nat
  student_id : Nat
  class_id : Nat
  content : String
  is_anonymous : Bool
  deriving DecidableEq, Repr

/-- The persistence layer state: the four tables. -/
structure Store where
  users : List SurvUser
  teachers : List Teacher
  classes : List SchoolClass
  feedbacks : List Feedback
  deriving DecidableEq, Repr

/-- Modelled from the spec: `werkzeug.generate_password_hash`, the local
hash written on first-time login.  Any injective function models it. -/
def generate_password_hash (p : String) : String := "pbkdf2$" ++ p

/-- Modelled from the spec: `User.authenticate` compares the supplied
password against the stored hash. -/
def SurvUser.authenticate (u : SurvUser) (p : String) : Bool :=
  u.password == generate_password_hash p

/-- The Identity Gateway (`ykps_auth`): maps credentials to a status code
(0 = success) and a display name.  It is an external collaborator, so it
is a parameter of the login handler. -/
structure Gateway where
  auth : String → String → Nat × String

/-- `re.match(r's\d{5}', username)` at `views.py:154`: Python `re.match`
anchors only at the start of the string, so this is a prefix test —
a lowercase `s` followed by five digits, with arbitrary trailing
characters allowed. -/
def reMatchStudentId (s : String) : Bool :=
  match s.toList with
  | c0 :: d1 :: d2 :: d3 :: d4 :: d5 :: _ =>
      c0 == 's' && d1.isDigit && d2.isDigit && d3.isDigit && d4.isDigit && d5.isDigit
  | _ => false

/-- The spec's words for the student-id shape: a lowercase `s` followed
by exactly five digits and nothing else.  Stated from the spec, to be
compared with `reMatchStudentId`, the shape the code actually tests. -/
def specStudentIdShape (s : String) : Bool :=
  match s.toList with
  | 's' :: rest => rest.length == 5 && rest.all Char.isDigit
  | _ => false

/-- The amended shape: a lowercase `s` followed by at least five digits,
i.e. a prefix match with trailing characters allowed.  Stated
independently of `reMatchStudentId` (via `drop`/`take` on the character
list rather than pattern matching). -/
def amendedStudentIdShape (s : String) : Bool :=
  decide (6 ≤ s.toList.length) && s.toList.take 1 == ['s']
    && ((s.toList.drop 1).take 5).all Char.isDigit

/-- Responses of the login handler (`views.py:126-171`). -/
inductive LoginResp
  | failure
  | redirectMatchTeacher
  | redirectDashboard
  deriving DecidableEq, Repr

/-- Result of a login request: the response, the updated store, and
whether the Identity Gateway was invoked during handling. -/
structure LoginOutcome where
  resp : LoginResp
  store : Store
  gatewayInvoked : Bool
  deriving Repr

/-- `login` (`views.py:126-171`).  Missing form fields default to the
empty string; `all((username, password))` rejects empty strings; an
existing user is authenticated locally, a new one through the gateway,
which on code 0 inserts a fresh `User` row classified by
`reMatchStudentId`. -/
def login (s : Store) (gw : Gateway) (username password : String) : LoginOutcome :=
  if username ≠ "" ∧ password ≠ "" then
    match s.users.find? (fun u => u.school_id == username) with
    | some user =>
        if user.authenticate password then
          { resp := if user.is_teacher && user.teacher_id == none then
              .redirectMatchTeacher else .redirectDashboard,
            store := s, gatewayInvoked := false }
        else
          { resp := .failure, store := s, gatewayInvoked := false }
    | none =>
        let res := gw.auth username password
        if res.1 = 0 then
          let isNewTeacher := ! reMatchStudentId username
          let user : SurvUser :=
            { id := s.users.length, school_id := username, name := res.2,
              password := generate_password_hash password,
              is_teacher := isNewTeacher, teacher_id := none }
          { resp := if isNewTeacher then .redirectMatchTeacher else .redirectDashboard,
            store := { s with users := s.users ++ [user] }, gatewayInvoked := true }
        else
          { resp := .failure, store := s, gatewayInvoked := true }
  else
    { resp := .failure, store := s, gatewayInvoked := false }

/-- Result of a `POST /feedback/delete` request: the JSON code, the
updated store, and whether storage was queried during handling. -/
structure DeleteOutcome where
  code : Nat
  store : Store
  queried : Bool
  deriving DecidableEq, Repr

/-- `Feedback.query.filter_by(id=...)` at `views.py:209` yields a
SQLAlchemy `Query` object, not a row; `Query` defines neither
`__bool__` nor `__len__`, so in Python `not query` is always `False`,
whatever the query would return. -/
def queryTruthy (_q : List Feedback) : Bool := true

/-- `delete_feedback` (`views.py:194-214`).  A teacher gets code 2 at
once; otherwise the handler filters by id only (no ownership check in
the source), tests the truthiness of the `Query` object, and deletes
every row the filter matches. -/
def delete_feedback (s : Store) (principal : SurvUser) (fid : Nat) : DeleteOutcome :=
  if principal.is_teacher then
    { code := 2, store := s, queried := false }
  else
    let feedback := s.feedbacks.filter (fun f => f.id == fid)
    if ! queryTruthy feedback then
      { code := 1, store := s, queried := true }
    else
      { code := 0,
        store := { s with feedbacks := s.feedbacks.filter (fun f => f.id ≠ fid) },
        queried := true }

/-- The eligible-class query shared by `new_feedback_page`
(`views.py:73-76`) and `edit_feedback_page`: all classes whose id is not
among the class ids of the student's own feedbacks. -/
def eligible_classes (s : Store) (studentId : Nat) : List SchoolClass :=
  let subquery := (s.feedbacks.filter (fun f => f.student_id == studentId)).map
    (fun f => f.class_id)
  s.classes.filter (fun c => ! subquery.contains c.id)

/-- Responses of the feedback-mutation POST handlers. -/
inductive MutResp
  | redirectDashboard
  | renderNewFeedbackPage
  deriving DecidableEq, Repr

/-- `new_feedback` (`views.py:217-239`).  A teacher is turned away;
otherwise one `Feedback` row is inserted for the principal with the form
data; the anonymity checkbox is true exactly when the field is the
string `on`. -/
def new_feedback (s : Store) (principal : SurvUser)
    (classId : Nat) (content : String) (anonymous : String) : MutResp × Store :=
  if principal.is_teacher then
    (.renderNewFeedbackPage, s)
  else
    let anon := anonymous == "on"
    let feedback : Feedback :=
      { id := s.feedbacks.length, student_id := principal.id,
        class_id := classId, content := content, is_anonymous := anon }
    (.redirectDashboard, { s with feedbacks := s.feedbacks ++ [feedback] })

/-- `edit_feedback` (`views.py:242-268`).  A teacher is turned away; a
missing row or one owned by another student redirects with no change;
otherwise the row's class reference, content and anonymity flag are
overwritten.  `Feedback.id` is the primary key, so updating every row
with the fetched id coincides with mutating the fetched row. -/
def edit_feedback (s : Store) (principal : SurvUser) (fid : Nat)
    (classId : Nat) (content : String) (anonymous : String) : MutResp × Store :=
  if principal.is_teacher then
    (.redirectDashboard, s)
  else
    match s.feedbacks.find? (fun f => f.id == fid) with
    | none => (.redirectDashboard, s)
    | some feedback =>
        if feedback.student_id ≠ principal.id then
          (.redirectDashboard, s)
        else
          let anon := anonymous == "on"
          (.redirectDashboard,
            { s with feedbacks := s.feedbacks.map (fun f =>
                if f.id == fid then
                  { f with class_id := classId, content := content, is_anonymous := anon }
                else f) })

/-- Responses of the match-teacher routes (`views.py:41-52, 174-191`). -/
inductive MatchResp
  | redirectDashboard
  | renderMatchPage (teachers : List Teacher)
  deriving DecidableEq, Repr

/-- The unlinked-teacher query of `match_teacher_page`
(`views.py:49-51`): teachers whose id is not among the non-null
`teacher_id` values of the user table. -/
def unmatched_teachers (s : Store) : List Teacher :=
  let subquery := s.users.filterMap (fun u => u.teacher_id)
  s.teachers.filter (fun t => ! subquery.contains t.id)

/-- `match_teacher_page` (`views.py:41-52`): only a teacher principal
with a null Teacher link sees the form; everyone else is redirected. -/
def match_teacher_page (s : Store) (principal : SurvUser) : MatchResp :=
  if ! (principal.is_teacher && principal.teacher_id == none) then
    .redirectDashboard
  else
    .renderMatchPage (unmatched_teachers s)

/-- Result of `POST /match-teacher`: the response, the updated store,
and the principal's row after the request (`current_user` is a row of
the user table). -/
structure MatchOutcome where
  resp : MatchResp
  store : Store
  principal : SurvUser
  deriving Repr

/-- `match_teacher` (`views.py:174-191`).  The guard mirrors the GET
page; past it the handler stores the raw form string — defaulting to
the empty string when the `teacher-id` field is absent — as the
principal's `teacher_id` and commits.  The source has no validation of
the submitted value (`# TODO: Data validation`). -/
def match_teacher (s : Store) (principal : SurvUser)
    (teacherIdField : Option String) : MatchOutcome :=
  if ! (principal.is_teacher && principal.teacher_id == none) then
    { resp := .redirectDashboard, store := s, principal := principal }
  else
    let teacher_id := teacherIdField.getD ""
    let principal' := { principal with teacher_id := some teacher_id }
    { resp := .redirectDashboard,
      store := { s with users := s.users.map (fun u =>
        if u.id == principal.id then { u with teacher_id := some teacher_id } else u) },
      principal := principal' }

/-- Responses of `POST /feedback/export` (`views.py:271-312`): redirect
to the dashboard (wrong role), redirect back to the export form (bad
request), or a downloadable file holding the rendered table.  Each
table row is the list of its cells in column order. -/
inductive ExportResp
  | redirectDashboard
  | redirectExportPage
  | file (rows : List (List String)) (format : String)
  deriving DecidableEq, Repr

/-- The query of `views.py:287-295`: all feedbacks whose class id is in
the requested set, ordered by class id ascending (`ORDER BY` modelled
by insertion sort). -/
def export_df (s : Store) (classIds : List Nat) : List Feedback :=
  List.insertionSort (fun a b => a.class_id ≤ b.class_id)
    (s.feedbacks.filter (fun f => classIds.contains f.class_id))

/-- The per-row processing of `views.py:300-303`: resolve the class id
to the class name, show the fixed placeholder for anonymous rows and
the student's display name otherwise, and order the cells Class,
Student, Content.  A lookup of an absent row is a Python crash
(`None.name`), hence `Option`; the anonymous branch never touches the
user table. -/
def render_row (s : Store) (f : Feedback) : Option (List String) :=
  (s.classes.find? (fun c => c.id == f.class_id)).bind (fun cls =>
    if f.is_anonymous then
      some [cls.name, "Anonymous", f.content]
    else
      (s.users.find? (fun u => u.id == f.student_id)).bind (fun stu =>
        some [cls.name, stu.name, f.content]))

/-- Row-by-row rendering of the whole data frame; `none` as soon as one
row fails to resolve. -/
def render_rows (s : Store) : List Feedback → Option (List (List String))
  | [] => some []
  | f :: fs =>
      match render_row s f, render_rows s fs with
      | some r, some rs => some (r :: rs)
      | _, _ => none

/-- `export_feedback` (`views.py:271-312`).  Only a teacher passes the
role guard; an empty class list or a format outside
`('excel', 'csv')` redirects back to the export form before any query
runs; otherwise the table is rendered and shipped as a file. -/
def export_feedback (s : Store) (principal : SurvUser)
    (classIds : List Nat) (export_format : String) : Option ExportResp :=
  if ! principal.is_teacher then
    some .redirectDashboard
  else if classIds.isEmpty || ! (export_format == "excel" || export_format == "csv") then
    some .redirectExportPage
  else
    match render_rows s (export_df s classIds) with
    | none => none
    | some rows => some (.file rows export_format)

/-- C9: For every POST /feedback/delete request made by a teacher
principal, the response is JSON code 2, returned without querying
storage, and no storage mutation occurs, regardless of the submitted
feedback id. -/
theorem delete_feedback_teacher_code2 (s : Store) (u : SurvUser) (fid : Nat)
    (hu : u.is_teacher = true) :
    delete_feedback s u fid = { code := 2, store := s, queried := false } := by
  simp [delete_feedback, hu]

theorem delete_feedback_teacher_code2_witness :
    (⟨1, "teach1", "T", "", true, some "x"⟩ : SurvUser).is_teacher = true ∧
    delete_feedback ⟨[], [], [], [⟨1, 10, 1, "c", false⟩]⟩
        ⟨1, "teach1", "T", "", true, some "x"⟩ 1
      = { code := 2, store := ⟨[], [], [], [⟨1, 10, 1, "c", false⟩]⟩, queried := false } :=
  ⟨rfl, delete_feedback_teacher_code2 _ _ 1 rfl⟩

/-- C1: the claim says a student deleting another student's feedback is
denied and the row preserved; the code has no ownership check, so the
row IS deleted and code 0 returned.  Here feedback 1 is owned by
student 10, yet student 20 deletes it successfully. -/
theorem delete_feedback_foreign_owner_deletes :
    delete_feedback ⟨[], [], [], [⟨1, 10, 1, "c", false⟩]⟩
        ⟨20, "s22222", "B", "", false, none⟩ 1
      = { code := 0, store := ⟨[], [], [], []⟩, queried := true } := by
  decide

/-- C2: the claim says deleting a nonexistent id yields code 1; the
`not feedback` test at `views.py:210` sees an always-truthy `Query`
object, so the handler falls through to `delete()` (which matches no
row) and returns code 0.  Here id 99 does not exist, yet the response
is code 0 (with storage indeed unchanged). -/
theorem delete_feedback_missing_id_code0 :
    delete_feedback ⟨[], [], [], [⟨1, 10, 1, "c", false⟩]⟩
        ⟨10, "s11111", "A", "", false, none⟩ 99
      = { code := 0, store := ⟨[], [], [], [⟨1, 10, 1, "c", false⟩]⟩, queried := true } := by
  decide

/-- C4: whenever a User row with the submitted username exists, the
login handler never invokes the Identity Gateway, whatever the supplied
password and whatever the gateway would answer. -/
theorem login_existing_user_no_gateway (s : Store) (gw : Gateway)
    (username password : String)
    (hex : ∃ u ∈ s.users, u.school_id = username) :
    (login s gw username password).gatewayInvoked = false := by
  unfold login
  by_cases hc : username ≠ "" ∧ password ≠ ""
  · rw [if_pos hc]
    cases h : s.users.find? (fun u => u.school_id == username) with
    | none =>
        exfalso
        rw [List.find?_eq_none] at h
        obtain ⟨u, hu, he⟩ := hex
        exact absurd (by simpa using he) (by simpa using h u hu)
    | some user =>
        by_cases ha : user.authenticate password = true <;> simp [ha]
  · rw [if_neg hc]

theorem login_existing_user_no_gateway_witness :
    (∃ u ∈ ({ users := [⟨0, "s11111", "A", "pw-hash", false, none⟩],
              teachers := [], classes := [], feedbacks := [] } : Store).users,
        u.school_id = "s11111") ∧
    (login { users := [⟨0, "s11111", "A", "pw-hash", false, none⟩],
             teachers := [], classes := [], feedbacks := [] }
        ⟨fun _ _ => (0, "ghost")⟩ "s11111" "wrong").gatewayInvoked = false :=
  ⟨⟨_, List.mem_singleton.mpr rfl, rfl⟩,
    login_existing_user_no_gateway _ _ _ _ ⟨_, List.mem_singleton.mpr rfl, rfl⟩⟩

/-- The prefix shape the code tests and the amended shape coincide. -/
theorem reMatch_iff_amended (s : String) :
    reMatchStudentId s = true ↔ amendedStudentIdShape s = true := by
  unfold reMatchStudentId amendedStudentIdShape
  rcases s.toList with _ | ⟨c0, _ | ⟨c1, _ | ⟨c2, _ | ⟨c3, _ | ⟨c4, _ | ⟨c5, rest⟩⟩⟩⟩⟩⟩ <;>
    simp [List.take, List.drop, List.all_cons, Nat.le_add_left]
  tauto

/-- C3 (counterexample): the claim requires `is_teacher = true` for any
identifier that is not `s` + exactly five digits; but `s123456` (six
digits, so outside the spec shape) is created with
`is_teacher = false`, because `re.match` only tests the prefix. -/
theorem login_student_shape_counterexample :
    specStudentIdShape "s123456" = false ∧
    ((login ⟨[], [], [], []⟩ ⟨fun _ _ => (0, "Jane Roe")⟩ "s123456" "pw").store.users.map
        (fun u => u.is_teacher)) = [false] := by
  constructor <;> rfl

/-- C3 (amended): for every first-time successful login, the created
User has `is_teacher = false` if and only if the username begins with a
lowercase `s` followed by at least five digits (trailing characters
allowed); every identifier without that prefix yields
`is_teacher = true`. -/
theorem login_first_time_classification (s : Store) (gw : Gateway)
    (username password : String)
    (hu : username ≠ "") (hp : password ≠ "")
    (hnew : s.users.find? (fun u => u.school_id == username) = none)
    (hgw : (gw.auth username password).1 = 0) :
    ∃ u : SurvUser, (login s gw username password).store.users = s.users ++ [u] ∧
      (u.is_teacher = false ↔ amendedStudentIdShape username = true) := by
  refine ⟨{ id := s.users.length, school_id := username,
            name := (gw.auth username password).2,
            password := generate_password_hash password,
            is_teacher := ! reMatchStudentId username, teacher_id := none }, ?_, ?_⟩
  · unfold login
    rw [if_pos ⟨hu, hp⟩, hnew, if_pos hgw]
  · rw [← reMatch_iff_amended]
    cases h : reMatchStudentId username <;> simp [h]

theorem login_first_time_classification_witness :
    ("s12345" ≠ "" ∧ "pw" ≠ "" ∧
      (Store.users ⟨[], [], [], []⟩).find? (fun u => u.school_id == "s12345") = none ∧
      ((Gateway.mk fun _ _ => (0, "Jane Roe")).auth "s12345" "pw").1 = 0) ∧
    ∃ u : SurvUser,
      (login ⟨[], [], [], []⟩ ⟨fun _ _ => (0, "Jane Roe")⟩ "s12345" "pw").store.users
        = (Store.users ⟨[], [], [], []⟩) ++ [u] ∧
      (u.is_teacher = false ↔ amendedStudentIdShape "s12345" = true) :=
  ⟨⟨by decide, by decide, rfl, rfl⟩,
    login_first_time_classification _ _ _ _ (by decide) (by decide) rfl rfl⟩

/-- Membership characterisation of the eligible-class query. -/
theorem mem_eligible_classes (s : Store) (studentId : Nat) (c : SchoolClass) :
    c ∈ eligible_classes s studentId ↔
      c ∈ s.classes ∧ ∀ f ∈ s.feedbacks, f.student_id = studentId → f.class_id ≠ c.id := by
  unfold eligible_classes
  simp [List.mem_filter]

/-- C5: for every student principal and every storage state, the
eligible-class set is exactly the full class set minus the classes the
student already has a Feedback row for (set difference by class id);
and after creating a Feedback for a class via `new_feedback`, that
class is absent from the next computation of the set. -/
theorem eligible_classes_spec (s : Store) (u : SurvUser)
    (classId : Nat) (content anonymous : String)
    (hu : u.is_teacher = false) :
    (∀ c : SchoolClass, c ∈ eligible_classes s u.id ↔
        c ∈ s.classes ∧ ∀ f ∈ s.feedbacks, f.student_id = u.id → f.class_id ≠ c.id) ∧
    (∀ c : SchoolClass,
        c ∈ eligible_classes (new_feedback s u classId content anonymous).2 u.id →
        c.id ≠ classId) := by
  refine ⟨fun c => mem_eligible_classes s u.id c, fun c hc he => ?_⟩
  rw [mem_eligible_classes] at hc
  have hmem : (⟨s.feedbacks.length, u.id, classId, content, anonymous == "on"⟩ : Feedback)
      ∈ (new_feedback s u classId content anonymous).2.feedbacks := by
    simp [new_feedback, hu]
  exact hc.2 _ hmem rfl he.symm

theorem eligible_classes_spec_witness :
    (⟨10, "s11111", "A", "", false, none⟩ : SurvUser).is_teacher = false ∧
    ((∀ c : SchoolClass,
        c ∈ eligible_classes ⟨[], [], [⟨1, "Math", "t1"⟩, ⟨2, "Art", "t1"⟩], []⟩
            (SurvUser.id ⟨10, "s11111", "A", "", false, none⟩) ↔
        c ∈ (⟨[], [], [⟨1, "Math", "t1"⟩, ⟨2, "Art", "t1"⟩], []⟩ : Store).classes ∧
          ∀ f ∈ (⟨[], [], [⟨1, "Math", "t1"⟩, ⟨2, "Art", "t1"⟩], []⟩ : Store).feedbacks,
            f.student_id = SurvUser.id ⟨10, "s11111", "A", "", false, none⟩ →
              f.class_id ≠ c.id) ∧
      (∀ c : SchoolClass,
        c ∈ eligible_classes
            (new_feedback ⟨[], [], [⟨1, "Math", "t1"⟩, ⟨2, "Art", "t1"⟩], []⟩
              ⟨10, "s11111", "A", "", false, none⟩ 1 "nice" "off").2
            (SurvUser.id ⟨10, "s11111", "A", "", false, none⟩) →
        c.id ≠ 1)) :=
  ⟨rfl, eligible_classes_spec ⟨[], [], [⟨1, "Math", "t1"⟩, ⟨2, "Art", "t1"⟩], []⟩
    ⟨10, "s11111", "A", "", false, none⟩ 1 "nice" "off" rfl⟩

instance : IsTotal Feedback (fun a b => a.class_id ≤ b.class_id) :=
  ⟨fun a b => Nat.le_total a.class_id b.class_id⟩

instance : IsTrans Feedback (fun a b => a.class_id ≤ b.class_id) :=
  ⟨fun _ _ _ hab hbc => Nat.le_trans hab hbc⟩

/-- Every successfully rendered row has exactly the three cells Class,
Student, Content, with the placeholder in the Student cell whenever the
feedback is anonymous. -/
theorem render_row_shape (s : Store) (f : Feedback) (r : List String)
    (h : render_row s f = some r) :
    ∃ cname sname, r = [cname, sname, f.content] ∧
      (f.is_anonymous = true → sname = "Anonymous") := by
  unfold render_row at h
  cases hc : s.classes.find? (fun c => c.id == f.class_id) <;> rw [hc] at h
  · exact absurd h (by simp)
  · rw [Option.some_bind] at h
    cases ha : f.is_anonymous <;> rw [ha] at h
    · rw [if_neg (by simp)] at h
      cases hs : s.users.find? (fun u => u.id == f.student_id) <;> rw [hs] at h
      · exact absurd h (by simp)
      · rw [Option.some_bind, Option.some.injEq] at h
        exact ⟨_, _, h.symm, fun hh => by simp at hh⟩
    · rw [if_pos rfl, Option.some.injEq] at h
      exact ⟨_, _, h.symm, fun _ => rfl⟩

/-- A successful `render_rows` run relates the data frame to the
rendered rows pointwise. -/
theorem render_rows_rel (s : Store) (l : List Feedback) :
    ∀ rows, render_rows s l = some rows →
      List.Forall₂ (fun f r => render_row s f = some r) l rows := by
  induction l with
  | nil =>
      intro rows h
      simp only [render_rows, Option.some.injEq] at h
      rw [← h]
      exact List.Forall₂.nil
  | cons f fs ih =>
      intro rows h
      unfold render_rows at h
      cases hr : render_row s f <;> rw [hr] at h
      · exact absurd h (by simp)
      · cases hrs : render_rows s fs <;> rw [hrs] at h
        · exact absurd h (by simp)
        · simp only [Option.some.injEq] at h
          rw [← h]
          exact List.Forall₂.cons hr (ih _ hrs)

/-- C6: for every export by a teacher with a non-empty class list and a
recognized format that yields a file, the table has one row per
Feedback row whose class id is in the requested set, the underlying
data frame is ordered by class id ascending, and each row is the three
cells Class, Student, Content with the placeholder Anonymous in the
Student cell of every anonymous feedback. -/
theorem export_feedback_table (s : Store) (u : SurvUser) (classIds : List Nat)
    (fmt : String) (rows : List (List String))
    (hu : u.is_teacher = true) (hne : classIds ≠ [])
    (hfmt : fmt = "excel" ∨ fmt = "csv")
    (hres : export_feedback s u classIds fmt = some (.file rows fmt)) :
    rows.length = (s.feedbacks.filter (fun f => classIds.contains f.class_id)).length ∧
    (export_df s classIds).Pairwise (fun a b => a.class_id ≤ b.class_id) ∧
    List.Forall₂ (fun f r => ∃ cname sname,
        r = [cname, sname, f.content] ∧
        (f.is_anonymous = true → sname = "Anonymous"))
      (export_df s classIds) rows := by
  have hrr : render_rows s (export_df s classIds) = some rows := by
    unfold export_feedback at hres
    rw [hu] at hres
    simp only [Bool.not_true, Bool.false_eq_true, if_false] at hres
    by_cases hg : (classIds.isEmpty || ! (fmt == "excel" || fmt == "csv")) = true
    · rw [if_pos hg] at hres
      exact absurd hres (by simp)
    · rw [if_neg hg] at hres
      cases hr : render_rows s (export_df s classIds) <;> rw [hr] at hres
      · exact absurd hres (by simp)
      · simp only [Option.some.injEq, ExportResp.file.injEq] at hres
        rw [hres.1]
  have hrel := render_rows_rel s (export_df s classIds) rows hrr
  refine ⟨?_, ?_, ?_⟩
  · rw [← hrel.length_eq]
    exact List.length_insertionSort _ _
  · exact List.sorted_insertionSort _ _
  · exact hrel.imp (fun f r hfr => render_row_shape s f r hfr)

/-- Concrete fixture for the export table claim. -/
def exportStore : Store :=
  ⟨[⟨10, "s11111", "Alice", "", false, none⟩], [], [⟨1, "Math", "t1"⟩],
    [⟨1, 10, 1, "good", true⟩]⟩

/-- Concrete teacher principal for the export table claim. -/
def exportTeacher : SurvUser := ⟨1, "teach1", "T", "", true, some "t1"⟩

theorem export_feedback_table_witness :
    (exportTeacher.is_teacher = true ∧ ([1] : List Nat) ≠ [] ∧
      (("csv" : String) = "excel" ∨ ("csv" : String) = "csv") ∧
      export_feedback exportStore exportTeacher [1] "csv"
        = some (.file [["Math", "Anonymous", "good"]] "csv")) ∧
    (([["Math", "Anonymous", "good"]] : List (List String)).length
        = (exportStore.feedbacks.filter
            (fun f => ([1] : List Nat).contains f.class_id)).length ∧
      (export_df exportStore [1]).Pairwise (fun a b => a.class_id ≤ b.class_id) ∧
      List.Forall₂ (fun f r => ∃ cname sname,
          r = [cname, sname, f.content] ∧
          (f.is_anonymous = true → sname = "Anonymous"))
        (export_df exportStore [1]) [["Math", "Anonymous", "good"]]) :=
  ⟨⟨rfl, by decide, Or.inr rfl, rfl⟩,
    export_feedback_table exportStore exportTeacher [1] "csv"
      [["Math", "Anonymous", "good"]] rfl (by decide) (Or.inr rfl) rfl⟩

/-- C7: for every export POST by a teacher whose class list is empty or
whose format selector is neither recognized literal, the handler
redirects back to the export form and no file response is produced. -/
theorem export_feedback_bad_request (s : Store) (u : SurvUser)
    (classIds : List Nat) (fmt : String)
    (hu : u.is_teacher = true)
    (hbad : classIds = [] ∨ (fmt ≠ "excel" ∧ fmt ≠ "csv")) :
    export_feedback s u classIds fmt = some .redirectExportPage ∧
    ∀ rows fmt2, export_feedback s u classIds fmt ≠ some (.file rows fmt2) := by
  have hg : (classIds.isEmpty || ! (fmt == "excel" || fmt == "csv")) = true := by
    rcases hbad with h | ⟨h1, h2⟩
    · simp [h]
    · simp [h1, h2]
  have h1 : export_feedback s u classIds fmt = some .redirectExportPage := by
    unfold export_feedback
    rw [hu]
    simp only [Bool.not_true, Bool.false_eq_true, if_false]
    rw [if_pos hg]
  refine ⟨h1, fun rows fmt2 hcontra => ?_⟩
  rw [h1] at hcontra
  simp at hcontra

theorem export_feedback_bad_request_witness :
    ((⟨1, "teach1", "T", "", true, some "t1"⟩ : SurvUser).is_teacher = true ∧
      (([] : List Nat) = [] ∨ (("csv" : String) ≠ "excel" ∧ ("csv" : String) ≠ "csv"))) ∧
    (export_feedback ⟨[], [], [], []⟩ ⟨1, "teach1", "T", "", true, some "t1"⟩ [] "csv"
        = some .redirectExportPage ∧
      ∀ rows fmt2,
        export_feedback ⟨[], [], [], []⟩ ⟨1, "teach1", "T", "", true, some "t1"⟩ [] "csv"
          ≠ some (.file rows fmt2)) :=
  ⟨⟨rfl, Or.inl rfl⟩,
    export_feedback_bad_request ⟨[], [], [], []⟩ ⟨1, "teach1", "T", "", true, some "t1"⟩
      [] "csv" rfl (Or.inl rfl)⟩

/-- C8: for every edit POST whose target Feedback row is missing or
owned by a different student, the handler redirects and the whole store
— in particular every field of the targeted row — is left unchanged. -/
theorem edit_feedback_denied_frame (s : Store) (u : SurvUser) (fid : Nat)
    (classId : Nat) (content anonymous : String)
    (hdeny : s.feedbacks.find? (fun f => f.id == fid) = none ∨
      ∃ f0, s.feedbacks.find? (fun f => f.id == fid) = some f0 ∧ f0.student_id ≠ u.id) :
    edit_feedback s u fid classId content anonymous = (.redirectDashboard, s) := by
  unfold edit_feedback
  by_cases ht : u.is_teacher = true
  · rw [if_pos ht]
  · rw [if_neg ht]
    rcases hdeny with h | ⟨f0, h, hne⟩
    · simp only [h]
    · simp only [h]
      rw [if_pos hne]

theorem edit_feedback_denied_frame_witness :
    ((Store.feedbacks ⟨[], [], [], [⟨1, 10, 1, "c", false⟩]⟩).find? (fun f => f.id == 1)
        = some ⟨1, 10, 1, "c", false⟩ ∧
      (Feedback.student_id ⟨1, 10, 1, "c", false⟩)
        ≠ (SurvUser.id ⟨20, "s22222", "B", "", false, none⟩)) ∧
    edit_feedback ⟨[], [], [], [⟨1, 10, 1, "c", false⟩]⟩
        ⟨20, "s22222", "B", "", false, none⟩ 1 2 "new" "on"
      = (.redirectDashboard, ⟨[], [], [], [⟨1, 10, 1, "c", false⟩]⟩) :=
  ⟨⟨rfl, by decide⟩,
    edit_feedback_denied_frame ⟨[], [], [], [⟨1, 10, 1, "c", false⟩]⟩
      ⟨20, "s22222", "B", "", false, none⟩ 1 2 "new" "on"
      (Or.inr ⟨⟨1, 10, 1, "c", false⟩, rfl, by decide⟩)⟩

/-- C10: a POST to /match-teacher by a teacher with a null Teacher link
stores the raw form string (empty string when the field is absent) as
the teacher reference and commits it; the principal's `teacher_id` is
then non-null, so both match-teacher routes redirect that principal
away afterwards whatever the stored value was. -/
theorem match_teacher_links_and_locks (s : Store) (u : SurvUser) (field : Option String)
    (hu : u.is_teacher = true) (hnull : u.teacher_id = none) :
    (match_teacher s u field).resp = .redirectDashboard ∧
    (match_teacher s u field).principal.teacher_id = some (field.getD "") ∧
    (match_teacher s u field).store.users = s.users.map (fun w =>
      if w.id == u.id then { w with teacher_id := some (field.getD "") } else w) ∧
    (∀ s2 : Store,
      match_teacher_page s2 (match_teacher s u field).principal = .redirectDashboard) ∧
    (∀ (s2 : Store) (field2 : Option String),
      match_teacher s2 (match_teacher s u field).principal field2
        = ⟨.redirectDashboard, s2, (match_teacher s u field).principal⟩) := by
  refine ⟨?_, ?_, ?_, fun s2 => ?_, fun s2 field2 => ?_⟩ <;>
    simp [match_teacher, match_teacher_page, hu, hnull]

/-- Concrete fixture for the match-teacher claim: one unmatched teacher
row in storage, a teacher principal with a null link, and an absent
`teacher-id` form field. -/
def matchStore : Store := ⟨[⟨7, "teach2", "U", "", true, none⟩], [⟨"t9", "Mr X"⟩], [], []⟩

/-- Concrete teacher principal for the match-teacher claim. -/
def matchUser : SurvUser := ⟨7, "teach2", "U", "", true, none⟩

theorem match_teacher_links_and_locks_witness :
    (matchUser.is_teacher = true ∧ matchUser.teacher_id = none) ∧
    ((match_teacher matchStore matchUser none).resp = .redirectDashboard ∧
      (match_teacher matchStore matchUser none).principal.teacher_id
        = some ((none : Option String).getD "") ∧
      (match_teacher matchStore matchUser none).store.users = matchStore.users.map (fun w =>
        if w.id == matchUser.id then
          { w with teacher_id := some ((none : Option String).getD "") } else w) ∧
      (∀ s2 : Store,
        match_teacher_page s2 (match_teacher matchStore matchUser none).principal
          = .redirectDashboard) ∧
      (∀ (s2 : Store) (field2 : Option String),
        match_teacher s2 (match_teacher matchStore matchUser none).principal field2
          = ⟨.redirectDashboard, s2, (match_teacher matchStore matchUser none).principal⟩)) :=
  ⟨⟨rfl, rfl⟩, match_teacher_links_and_locks matchStore matchUser none rfl rfl⟩
